import Mathlib

/-!
# Verification of the quickback news-gateway admission layer

Shallow embedding of the cache + rate-limit admission layer of the
quickback repository (src/index.js and the unnamed second source file).
Timestamps are milliseconds as `Int` (JavaScript `Date.now()`), payloads
are opaque strings, and the asynchronous upstream fetch is passed in as
an `Option Payload` (`none` models a thrown fetch error).  JavaScript
dynamic-property semantics (the `telugutwo` key that is absent from
`originalApiRequestCounts`) are modelled explicitly with `JsVal`.
-/

namespace Quickback

/-- An opaque upstream payload (the JSON data the gateway relays). -/
abbrev Payload := String

/-- The upstream identities the routes dispatch on: the four API keys of
src/index.js (`apiKeys` has keys telugu, telugutwo, english, search). -/
inductive Identity where
  | telugu
  | telugutwo
  | english
  | search
deriving DecidableEq, Repr

/-- A JavaScript numeric-ish value as stored in `originalApiRequestCounts`:
reading a missing property yields `undefined`; `undefined++` and `nan++`
both store `NaN`; the declared properties hold ordinary numbers. -/
inductive JsVal where
  | undef
  | nan
  | int (n : Nat)
deriving DecidableEq, Repr

/-- JavaScript `v >= limit`: false whenever `v` is `undefined` or `NaN`. -/
def jsGe (v : JsVal) (limit : Nat) : Bool :=
  match v with
  | .int n => decide (limit ≤ n)
  | _ => false

/-- JavaScript `v++` (the stored result): numbers increment; `undefined`
and `NaN` both become `NaN`. -/
def jsIncr (v : JsVal) : JsVal :=
  match v with
  | .int n => .int (n + 1)
  | _ => .nan

/-- The `originalApiRequestCounts` object.  The source literal declares
exactly the keys telugu, english, search (src/index.js lines 31-35);
`telugutwo` is only ever created dynamically by the `++` on line 159, so
it is modelled as a `JsVal` that starts out `undef` (absent). -/
structure CounterObj where
  telugu : Nat
  english : Nat
  search : Nat
  telugutwo : JsVal
deriving DecidableEq, Repr

/-- `originalApiRequestCounts[apiKeyType]` (property read). -/
def getField (c : CounterObj) : Identity → JsVal
  | .telugu => .int c.telugu
  | .english => .int c.english
  | .search => .int c.search
  | .telugutwo => c.telugutwo

/-- `originalApiRequestCounts[apiKeyType]++` (property update). -/
def incrField (c : CounterObj) : Identity → CounterObj
  | .telugu => { c with telugu := c.telugu + 1 }
  | .english => { c with english := c.english + 1 }
  | .search => { c with search := c.search + 1 }
  | .telugutwo => { c with telugutwo := jsIncr c.telugutwo }

/-- 15 minutes in milliseconds (src/index.js line 38). -/
def rateLimitWindow : Int := 15 * 60 * 1000

/-- 30 requests per window (src/index.js line 39). -/
def rateLimit : Nat := 30

/-- Cache TTL: 12 hours, `stdTTL: 43200` seconds, in milliseconds. -/
def cacheTtlMs : Int := 43200 * 1000

/-- The module-level mutable rate-limiter state of src/index.js. -/
structure RateState where
  apiRequestCount : Nat
  originalApiRequestCounts : CounterObj
  rateLimitResetTime : Int
  firstRequestTime : Option Int
deriving DecidableEq, Repr

/-- The fresh counter object installed by `resetRateLimit` (and the module
initializer): keys telugu, english, search at 0, no telugutwo key. -/
def resetCounts : CounterObj :=
  { telugu := 0, english := 0, search := 0, telugutwo := .undef }

/-- `resetRateLimit()` (src/index.js lines 44-53): zero every counter,
advance the window to `[now, now + rateLimitWindow)`, clear
`firstRequestTime`. -/
def resetRateLimit (now : Int) : RateState :=
  { apiRequestCount := 0
    originalApiRequestCounts := resetCounts
    rateLimitResetTime := now + rateLimitWindow
    firstRequestTime := none }

/-- One cache entry of the NodeCache instance. -/
structure CacheEntry where
  value : Payload
  expiresAt : Int
deriving DecidableEq, Repr

/-- The NodeCache key-value store, as an association list. -/
abbrev Cache := List (String × CacheEntry)

/-- `cache.get(key)`: the stored value if present and unexpired. -/
def cacheGet (c : Cache) (key : String) (now : Int) : Option Payload :=
  match c.find? (fun e => e.1 == key) with
  | some e => if now < e.2.expiresAt then some e.2.value else none
  | none => none

/-- `cache.set(key, value)`: overwrite any entry for `key`, expiring
`cacheTtlMs` from now (stdTTL of the NodeCache constructor). -/
def cacheSet (c : Cache) (key : String) (v : Payload) (now : Int) : Cache :=
  (key, { value := v, expiresAt := now + cacheTtlMs }) ::
    c.filter (fun e => !(e.1 == key))

/-- The whole process-wide mutable state: the cache plus the limiter. -/
structure SysState where
  cache : Cache
  rate : RateState
deriving DecidableEq, Repr

/-- The body of an HTTP JSON response: relayed payload or an error
object `{ error: msg }`. -/
inductive RespBody where
  | data (p : Payload)
  | err (msg : String)
deriving DecidableEq, Repr

/-- An HTTP response: status code and JSON body. -/
structure Response where
  status : Nat
  body : RespBody
deriving DecidableEq, Repr

/-- A record of the outbound upstream call a handler performed, if any:
the newsdata.io API call with its parameters, the tv9 top-news GET, or
the scrape-and-rewrite pipeline on a URL. -/
inductive UpstreamCall where
  | newsApi (language : String) (q : Option String)
      (category : Option String) (page : Option String)
  | topNews
  | scrape (url : String)
deriving DecidableEq, Repr

/-- The observable outcome of one route handler invocation: the response
sent, the state left behind, and the upstream call made (if any). -/
structure HandlerOut where
  resp : Response
  state : SysState
  upstream : Option UpstreamCall
deriving DecidableEq, Repr

/-- JavaScript string/param truthiness for `req.query.x` values:
`undefined` and the empty string are falsy. -/
def jsTruthy : Option String → Bool
  | none => false
  | some s => !(s == "")

/-- Template-literal stringification of a possibly-undefined query
parameter: an absent parameter prints as the string undefined. -/
def jsStr : Option String → String
  | none => "undefined"
  | some s => s

/-- JavaScript `v || d` for query-parameter strings. -/
def jsOrDefault (v : Option String) (d : String) : String :=
  if jsTruthy v then jsStr v else d

/-- The tail of both admission handlers after admission is granted
(src/index.js lines 118-130 and 158-170): increment the identity's
counter, perform the upstream fetch; on success cache and relay the
data, on failure answer 500 with the fixed generic message, caching
nothing and rolling nothing back. -/
def fetchAndRespond (cache : Cache) (rate : RateState) (now : Int)
    (id : Identity) (cacheKey : String) (call : UpstreamCall)
    (fetchResult : Option Payload) : HandlerOut :=
  let rate2 :=
    { rate with originalApiRequestCounts := incrField rate.originalApiRequestCounts id }
  match fetchResult with
  | some d =>
      { resp := { status := 200, body := .data d }
        state := { cache := cacheSet cache cacheKey d now, rate := rate2 }
        upstream := some call }
  | none =>
      { resp := { status := 500, body := .err "Failed to fetch data" }
        state := { cache := cache, rate := rate2 }
        upstream := some call }

/-- The shared body of `app.get(search)` and `handleNewsRequest`
(src/index.js lines 91-131 and 134-171): bump the endpoint counter,
try the cache, then the rate-limit check (reset only when the counter
has reached the limit AND the window has expired), then fetch. -/
def handleApiRequest (st : SysState) (now : Int) (id : Identity)
    (cacheKey : String) (call : UpstreamCall)
    (fetchResult : Option Payload) : HandlerOut :=
  let rate0 := { st.rate with apiRequestCount := st.rate.apiRequestCount + 1 }
  match cacheGet st.cache cacheKey now with
  | some v =>
      { resp := { status := 200, body := .data v }
        state := { cache := st.cache, rate := rate0 }
        upstream := none }
  | none =>
      if jsGe (getField rate0.originalApiRequestCounts id) rateLimit then
        if rate0.rateLimitResetTime - now > 0 then
          { resp := { status := 429,
                      body := .err "Rate limit reached. Please try again later." }
            state := { cache := st.cache, rate := rate0 }
            upstream := none }
        else
          fetchAndRespond st.cache (resetRateLimit now) now id cacheKey call fetchResult
      else
        fetchAndRespond st.cache rate0 now id cacheKey call fetchResult

/-- The query parameters a GET /search request may carry. -/
structure SearchQuery where
  q : Option String
  language : Option String
  category : Option String
  page : Option String
deriving DecidableEq, Repr

/-- The /search cache key (src/index.js line 99): a dash-joined template
literal over language, query and category, with a page suffix only when
the page parameter is truthy. -/
def searchCacheKey (query : SearchQuery) : String :=
  let language := jsOrDefault query.language "te"
  let base := "search-" ++ language ++ "-" ++ jsStr query.q ++ "-" ++ jsStr query.category
  if jsTruthy query.page then base ++ "-page-" ++ jsStr query.page else base

/-- The news-route cache key (src/index.js line 139). -/
def newsCacheKey (language : String) (page : Option String) : String :=
  if jsTruthy page then "news-" ++ language ++ "-page-" ++ jsStr page
  else "news-" ++ language

/-- The GET /search handler (src/index.js lines 91-131). -/
def searchRoute (st : SysState) (now : Int) (query : SearchQuery)
    (fetchResult : Option Payload) : HandlerOut :=
  let language := jsOrDefault query.language "te"
  handleApiRequest st now .search (searchCacheKey query)
    (.newsApi language query.q query.category query.page) fetchResult

/-- `handleNewsRequest` (src/index.js lines 134-171), shared by the three
news routes; the upstream call passes null query and category. -/
def handleNewsRequest (st : SysState) (now : Int) (language : String)
    (apiKeyType : Identity) (page : Option String)
    (fetchResult : Option Payload) : HandlerOut :=
  handleApiRequest st now apiKeyType (newsCacheKey language page)
    (.newsApi language none none page) fetchResult

/-- GET /telugu/news (src/index.js lines 77-79). -/
def teluguNewsRoute (st : SysState) (now : Int) (page : Option String)
    (fetchResult : Option Payload) : HandlerOut :=
  handleNewsRequest st now "te" .telugu page fetchResult

/-- GET /telugutwo/news (src/index.js lines 81-83). -/
def telugutwoNewsRoute (st : SysState) (now : Int) (page : Option String)
    (fetchResult : Option Payload) : HandlerOut :=
  handleNewsRequest st now "te" .telugutwo page fetchResult

/-- GET /english/news (src/index.js lines 86-88). -/
def englishNewsRoute (st : SysState) (now : Int) (page : Option String)
    (fetchResult : Option Payload) : HandlerOut :=
  handleNewsRequest st now "en" .english page fetchResult

/-- GET /topnews (src/index.js lines 200-207): fetch the tv9 feed
unconditionally; no cache, no rate limiter. -/
def topnewsRoute (st : SysState) (now : Int)
    (fetchResult : Option Payload) : HandlerOut :=
  match fetchResult with
  | some d =>
      { resp := { status := 200, body := .data d }
        state := st, upstream := some .topNews }
  | none =>
      { resp := { status := 500, body := .err "Failed to fetch news data" }
        state := st, upstream := some .topNews }

/-- POST /topnews/url (unnamed source file lines 40-67): 400 when the
body has no (truthy) url; otherwise scrape and rewrite, with no cache
or rate-limiter interaction on any path. -/
def topnewsUrlRoute (st : SysState) (now : Int) (url : Option String)
    (fetchResult : Option Payload) : HandlerOut :=
  if jsTruthy url then
    match fetchResult with
    | some d =>
        { resp := { status := 200, body := .data d }
          state := st, upstream := some (.scrape (jsStr url)) }
    | none =>
        { resp := { status := 500, body := .err "Failed to scrape the URL" }
          state := st, upstream := some (.scrape (jsStr url)) }
  else
    { resp := { status := 400, body := .err "URL is required" }
      state := st, upstream := none }

/-- One per-identity block of the /rate-limit introspection payload. -/
structure ApiInfo where
  requests : Nat
  remaining : Int
  timeRemaining : Rat
deriving DecidableEq, Repr

/-- The /rate-limit introspection payload: one block per declared key of
`originalApiRequestCounts` (telugu, english, search; no telugutwo). -/
structure RateLimitInfo where
  teluguapi : ApiInfo
  englishapi : ApiInfo
  searchapi : ApiInfo
deriving DecidableEq, Repr

/-- GET /rate-limit (src/index.js lines 174-197): elapsed time is
computed from `firstRequestTime` (0 when that is null or 0, by JS
truthiness), remaining time is `rateLimitWindow - elapsed`, reported in
seconds. -/
def rateLimitInfoRoute (rate : RateState) (now : Int) : RateLimitInfo :=
  let timeElapsed : Int :=
    match rate.firstRequestTime with
    | some t => if t = 0 then 0 else now - t
    | none => 0
  let timeRemaining : Int := rateLimitWindow - timeElapsed
  let secs : Rat := (timeRemaining : Rat) / 1000
  { teluguapi :=
      { requests := rate.originalApiRequestCounts.telugu
        remaining := (rateLimit : Int) - rate.originalApiRequestCounts.telugu
        timeRemaining := secs }
    englishapi :=
      { requests := rate.originalApiRequestCounts.english
        remaining := (rateLimit : Int) - rate.originalApiRequestCounts.english
        timeRemaining := secs }
    searchapi :=
      { requests := rate.originalApiRequestCounts.search
        remaining := (rateLimit : Int) - rate.originalApiRequestCounts.search
        timeRemaining := secs } }

/-- The module state right after load, taking the load instant as time 0
(`rateLimitResetTime = Date.now() + rateLimitWindow`). -/
def initialState : SysState :=
  { cache := []
    rate :=
      { apiRequestCount := 0
        originalApiRequestCounts := resetCounts
        rateLimitResetTime := rateLimitWindow
        firstRequestTime := none } }

/-- Iterate a state transformer. -/
def iterState (f : SysState → SysState) : Nat → SysState → SysState
  | 0, st => st
  | n + 1, st => iterState f n (f st)

/-- One cache-missing /telugutwo/news attempt at time 0 whose upstream
fetch fails (so nothing is cached and every attempt is a miss). -/
def telugutwoMissStep (st : SysState) : SysState :=
  (telugutwoNewsRoute st 0 none none).state

/-- One cache-missing /search attempt at time 0 whose upstream fetch
fails. -/
def searchMissStep (st : SysState) : SysState :=
  (searchRoute st 0 { q := none, language := none, category := none, page := none } none).state

/-! ## General lemmas about the embedded operations -/

/-- Incrementing an identity's counter field increments exactly the value
`getField` reads back for that identity. -/
theorem getField_incrField (c : CounterObj) (id : Identity) :
    getField (incrField c id) id = jsIncr (getField c id) := by
  cases id <;> rfl

/-- A freshly stored entry is immediately readable (the TTL is positive). -/
theorem cacheGet_cacheSet_self (c : Cache) (k : String) (v : Payload) (now : Int) :
    cacheGet (cacheSet c k v now) k now = some v := by
  simp [cacheGet, cacheSet, cacheTtlMs]

/-- No string extending the search-key prefix equals one extending the
news-key prefix (the leading characters differ). -/
theorem search_ne_news (a b : String) : "search-" ++ a ≠ "news-" ++ b := by
  intro h
  have h2 : ("search-" ++ a).data = ("news-" ++ b).data := congrArg String.data h
  rw [String.data_append, String.data_append] at h2
  have h3 : ('s' :: ("earch-".data ++ a.data) : List Char) =
      'n' :: ("ews-".data ++ b.data) := h2
  injection h3 with h4 h5
  exact absurd h4 (by decide)

/-- Every /search cache key extends the search-key prefix. -/
theorem searchCacheKey_prefix (query : SearchQuery) :
    ∃ r, searchCacheKey query = "search-" ++ r := by
  unfold searchCacheKey
  split
  · refine ⟨jsOrDefault query.language "te" ++
      ("-" ++ (jsStr query.q ++ ("-" ++ (jsStr query.category ++
        ("-page-" ++ jsStr query.page))))), ?_⟩
    simp [String.append_assoc]
  · refine ⟨jsOrDefault query.language "te" ++
      ("-" ++ (jsStr query.q ++ ("-" ++ jsStr query.category))), ?_⟩
    simp [String.append_assoc]

/-- Every news cache key extends the news-key prefix. -/
theorem newsCacheKey_prefix (l : String) (p : Option String) :
    ∃ r, newsCacheKey l p = "news-" ++ r := by
  unfold newsCacheKey
  split
  · refine ⟨l ++ ("-page-" ++ jsStr p), ?_⟩
    simp [String.append_assoc]
  · exact ⟨l, rfl⟩

/-- A handler either makes no upstream call or makes exactly the call the
route dispatched. -/
theorem handleApiRequest_upstream_cases (st : SysState) (now : Int) (id : Identity)
    (key : String) (call : UpstreamCall) (fr : Option Payload) :
    (handleApiRequest st now id key call fr).upstream = none ∨
    (handleApiRequest st now id key call fr).upstream = some call := by
  unfold handleApiRequest
  split
  · simp
  · dsimp only
    split
    · split
      · simp
      · cases fr <;> simp [fetchAndRespond]
    · cases fr <;> simp [fetchAndRespond]

/-! ## Example states used as concrete inputs -/

/-- A state whose cache holds an unexpired entry for key k. -/
def exampleHitState : SysState :=
  { cache := [("k", { value := "v", expiresAt := 1000 })]
    rate :=
      { apiRequestCount := 7
        originalApiRequestCounts :=
          { telugu := 1, english := 2, search := 3, telugutwo := .undef }
        rateLimitResetTime := 900000
        firstRequestTime := none } }

/-- A state with the search counter at the limit and 60 seconds left in
the window (measured from time 0). -/
def exampleThrottledState : SysState :=
  { cache := []
    rate :=
      { apiRequestCount := 30
        originalApiRequestCounts :=
          { telugu := 0, english := 0, search := 30, telugutwo := .undef }
        rateLimitResetTime := 60000
        firstRequestTime := none } }

/-- Like exampleThrottledState but with 300 seconds left in the window. -/
def exampleThrottledStateFar : SysState :=
  { cache := []
    rate :=
      { apiRequestCount := 30
        originalApiRequestCounts :=
          { telugu := 0, english := 0, search := 30, telugutwo := .undef }
        rateLimitResetTime := 300000
        firstRequestTime := none } }

/-- A state whose window ended at time 100 with the search counter at 5,
below the limit. -/
def exampleExpiredState : SysState :=
  { cache := []
    rate :=
      { apiRequestCount := 5
        originalApiRequestCounts :=
          { telugu := 0, english := 0, search := 5, telugutwo := .undef }
        rateLimitResetTime := 100
        firstRequestTime := none } }

/-- A state whose window ended at time 100 with the search counter at the
limit. -/
def exampleExpiredLimitState : SysState :=
  { cache := []
    rate :=
      { apiRequestCount := 30
        originalApiRequestCounts :=
          { telugu := 0, english := 0, search := 30, telugutwo := .undef }
        rateLimitResetTime := 100
        firstRequestTime := none } }

/-- A rate state used to probe the introspection endpoint: 10 search
calls made, window ending at 1200000. -/
def exampleIntrospectionRate : RateState :=
  { apiRequestCount := 10
    originalApiRequestCounts :=
      { telugu := 0, english := 0, search := 10, telugutwo := .undef }
    rateLimitResetTime := 1200000
    firstRequestTime := none }

/-! ## Claims -/

set_option maxRecDepth 100000

/-- C1: for identities with a declared counter the 30th cache-miss attempt
in an unexpired window is admitted and the 31st is throttled with 429 and
no upstream fetch, as shown here for search; but for telugutwo the claim
fails on the code: `originalApiRequestCounts` has no telugutwo key, so
the limit check compares undefined (then NaN) with the limit, which is
always false, and the 31st cache-miss /telugutwo/news attempt of this run
is still admitted (it reaches the upstream fetch and answers 500 on fetch
failure, never 429). -/
theorem c1_rate_limit_boundary_failing_input :
    (searchRoute (iterState searchMissStep 29 initialState) 0
        { q := none, language := none, category := none, page := none } none).resp.status = 500 ∧
    (searchRoute (iterState searchMissStep 29 initialState) 0
        { q := none, language := none, category := none, page := none } none).upstream.isSome = true ∧
    (searchRoute (iterState searchMissStep 30 initialState) 0
        { q := none, language := none, category := none, page := none } none).resp.status = 429 ∧
    (searchRoute (iterState searchMissStep 30 initialState) 0
        { q := none, language := none, category := none, page := none } none).upstream = none ∧
    (iterState telugutwoMissStep 30 initialState).rate.originalApiRequestCounts.telugutwo = .nan ∧
    (telugutwoNewsRoute (iterState telugutwoMissStep 30 initialState) 0 none none).resp.status = 500 ∧
    (telugutwoNewsRoute (iterState telugutwoMissStep 30 initialState) 0 none none).upstream
      = some (.newsApi "te" none none none) := by
  refine ⟨by decide, by decide, by decide, by decide, by decide, by decide, by decide⟩

/-- C2 counterexample: at time 200 the window (ending at 100) has
expired and the cache misses, yet the request leaves the search count at
6 (not 1) and the window end at its stale value 100 (not advanced to
now + W): the limiter does not reset on expiry when the count is below
the limit. -/
theorem c2_window_expiry_counterexample :
    exampleExpiredState.rate.rateLimitResetTime ≤ 200 ∧
    cacheGet exampleExpiredState.cache
      (searchCacheKey { q := some "x", language := none, category := none, page := none }) 200 = none ∧
    (searchRoute exampleExpiredState 200
      { q := some "x", language := none, category := none, page := none } (some "d")).upstream.isSome = true ∧
    (searchRoute exampleExpiredState 200
      { q := some "x", language := none, category := none, page := none } (some "d")).state.rate.originalApiRequestCounts.search = 6 ∧
    (searchRoute exampleExpiredState 200
      { q := some "x", language := none, category := none, page := none } (some "d")).state.rate.originalApiRequestCounts.search ≠ 1 ∧
    (searchRoute exampleExpiredState 200
      { q := some "x", language := none, category := none, page := none } (some "d")).state.rate.rateLimitResetTime = 100 ∧
    (searchRoute exampleExpiredState 200
      { q := some "x", language := none, category := none, page := none } (some "d")).state.rate.rateLimitResetTime ≠ 200 + rateLimitWindow := by
  decide

/-- C2 amended: a cache-miss request arriving at or after the window end
is always admitted; the reset (all counts to 0, window advanced to
[now, now + W), so the admitted request completes with count 1) happens
only when the identity's count has reached the limit; otherwise no reset
occurs and the count increments from its previous value with the stale
window end kept. -/
theorem c2_window_expiry_amended (st : SysState) (now : Int) (id : Identity)
    (key : String) (call : UpstreamCall) (fr : Option Payload)
    (hmiss : cacheGet st.cache key now = none)
    (hexp : st.rate.rateLimitResetTime - now ≤ 0) :
    (handleApiRequest st now id key call fr).upstream = some call ∧
    (if jsGe (getField st.rate.originalApiRequestCounts id) rateLimit then
      (handleApiRequest st now id key call fr).state.rate.originalApiRequestCounts
          = incrField resetCounts id ∧
      (handleApiRequest st now id key call fr).state.rate.rateLimitResetTime
          = now + rateLimitWindow
    else
      (handleApiRequest st now id key call fr).state.rate.originalApiRequestCounts
          = incrField st.rate.originalApiRequestCounts id ∧
      (handleApiRequest st now id key call fr).state.rate.rateLimitResetTime
          = st.rate.rateLimitResetTime) := by
  unfold handleApiRequest
  rw [hmiss]
  cases hge : jsGe (getField st.rate.originalApiRequestCounts id) rateLimit
  case false =>
    simp only [hge, Bool.false_eq_true, if_false]
    cases fr <;> simp [fetchAndRespond]
  case true =>
    simp only [hge, if_true]
    split
    · next hcond => exact absurd hcond (by simp; omega)
    · cases fr <;> simp [fetchAndRespond, resetRateLimit]

/-- C2 amended, witness: a cache-miss request at time 200 against an
expired window whose search count had reached the limit is admitted,
resets every count and advances the window. -/
theorem c2_window_expiry_amended_witness :
    (handleApiRequest exampleExpiredLimitState 200 .search "k"
        (.newsApi "te" none none none) (some "d")).upstream = some (.newsApi "te" none none none) ∧
    (if jsGe (getField exampleExpiredLimitState.rate.originalApiRequestCounts .search) rateLimit then
      (handleApiRequest exampleExpiredLimitState 200 .search "k"
          (.newsApi "te" none none none) (some "d")).state.rate.originalApiRequestCounts
          = incrField resetCounts .search ∧
      (handleApiRequest exampleExpiredLimitState 200 .search "k"
          (.newsApi "te" none none none) (some "d")).state.rate.rateLimitResetTime
          = 200 + rateLimitWindow
    else
      (handleApiRequest exampleExpiredLimitState 200 .search "k"
          (.newsApi "te" none none none) (some "d")).state.rate.originalApiRequestCounts
          = incrField exampleExpiredLimitState.rate.originalApiRequestCounts .search ∧
      (handleApiRequest exampleExpiredLimitState 200 .search "k"
          (.newsApi "te" none none none) (some "d")).state.rate.rateLimitResetTime
          = exampleExpiredLimitState.rate.rateLimitResetTime) :=
  c2_window_expiry_amended exampleExpiredLimitState 200 .search "k"
    (.newsApi "te" none none none) (some "d") (by decide) (by decide)

/-- C3 counterexample: two throttled requests whose windows end 60 and
300 seconds away receive byte-for-byte identical 429 responses, so the
response carries no retryAfterSeconds value equal to the time remaining
(the body is the fixed generic error message). -/
theorem c3_throttle_response_counterexample :
    (searchRoute exampleThrottledState 0
      { q := none, language := none, category := none, page := none } none).resp.status = 429 ∧
    (searchRoute exampleThrottledStateFar 0
      { q := none, language := none, category := none, page := none } none).resp.status = 429 ∧
    exampleThrottledState.rate.rateLimitResetTime - 0 = 60000 ∧
    exampleThrottledStateFar.rate.rateLimitResetTime - 0 = 300000 ∧
    (searchRoute exampleThrottledState 0
      { q := none, language := none, category := none, page := none } none).resp
      = (searchRoute exampleThrottledStateFar 0
      { q := none, language := none, category := none, page := none } none).resp := by
  decide

/-- C3 amended: a request throttled inside an unexpired window is
answered 429 with the fixed generic error body (which carries no
retry-after value), the internally computed time remaining is strictly
positive there (the hypothesis below), and the cache is left unchanged
with no upstream fetch. -/
theorem c3_throttle_response_amended (st : SysState) (now : Int) (id : Identity)
    (key : String) (call : UpstreamCall) (fr : Option Payload)
    (hmiss : cacheGet st.cache key now = none)
    (hlim : jsGe (getField st.rate.originalApiRequestCounts id) rateLimit = true)
    (hwin : st.rate.rateLimitResetTime - now > 0) :
    (handleApiRequest st now id key call fr).resp =
      { status := 429, body := .err "Rate limit reached. Please try again later." } ∧
    (handleApiRequest st now id key call fr).state.cache = st.cache ∧
    (handleApiRequest st now id key call fr).upstream = none := by
  unfold handleApiRequest
  rw [hmiss]
  simp [hlim, hwin]

/-- C3 amended, witness at the concrete throttled state. -/
theorem c3_throttle_response_amended_witness :
    (handleApiRequest exampleThrottledState 0 .search "k"
        (.newsApi "te" none none none) none).resp =
      { status := 429, body := .err "Rate limit reached. Please try again later." } ∧
    (handleApiRequest exampleThrottledState 0 .search "k"
        (.newsApi "te" none none none) none).state.cache = exampleThrottledState.cache ∧
    (handleApiRequest exampleThrottledState 0 .search "k"
        (.newsApi "te" none none none) none).upstream = none :=
  c3_throttle_response_amended exampleThrottledState 0 .search "k"
    (.newsApi "te" none none none) none (by decide) (by decide) (by decide)

/-- C4: on a cache hit the handler returns the cached value with status
200, performs no upstream call, and leaves the cache, every per-identity
count, the window end and firstRequestTime unchanged. -/
theorem c4_cache_hit_frame (st : SysState) (now : Int) (id : Identity)
    (key : String) (call : UpstreamCall) (fr : Option Payload) (v : Payload)
    (hhit : cacheGet st.cache key now = some v) :
    (handleApiRequest st now id key call fr).resp = { status := 200, body := .data v } ∧
    (handleApiRequest st now id key call fr).state.cache = st.cache ∧
    (handleApiRequest st now id key call fr).state.rate.originalApiRequestCounts
      = st.rate.originalApiRequestCounts ∧
    (handleApiRequest st now id key call fr).state.rate.rateLimitResetTime
      = st.rate.rateLimitResetTime ∧
    (handleApiRequest st now id key call fr).state.rate.firstRequestTime
      = st.rate.firstRequestTime ∧
    (handleApiRequest st now id key call fr).upstream = none := by
  unfold handleApiRequest
  rw [hhit]
  simp

/-- C4 witness: a hit on the concrete cached state. -/
theorem c4_cache_hit_frame_witness :
    (handleApiRequest exampleHitState 0 .search "k"
        (.newsApi "te" none none none) (some "d")).resp = { status := 200, body := .data "v" } ∧
    (handleApiRequest exampleHitState 0 .search "k"
        (.newsApi "te" none none none) (some "d")).state.cache = exampleHitState.cache ∧
    (handleApiRequest exampleHitState 0 .search "k"
        (.newsApi "te" none none none) (some "d")).state.rate.originalApiRequestCounts
      = exampleHitState.rate.originalApiRequestCounts ∧
    (handleApiRequest exampleHitState 0 .search "k"
        (.newsApi "te" none none none) (some "d")).state.rate.rateLimitResetTime
      = exampleHitState.rate.rateLimitResetTime ∧
    (handleApiRequest exampleHitState 0 .search "k"
        (.newsApi "te" none none none) (some "d")).state.rate.firstRequestTime
      = exampleHitState.rate.firstRequestTime ∧
    (handleApiRequest exampleHitState 0 .search "k"
        (.newsApi "te" none none none) (some "d")).upstream = none :=
  c4_cache_hit_frame exampleHitState 0 .search "k"
    (.newsApi "te" none none none) (some "d") "v" (by decide)

/-- C5: when the admitted upstream fetch fails, the handler answers 500
with the fixed generic message (no internal cause in the body), writes
nothing to the cache, and keeps the counter increment, so an identical
key still misses the cache afterwards and the count includes the failed
attempt. -/
theorem c5_upstream_failure_semantics (st : SysState) (now : Int) (id : Identity)
    (key : String) (call : UpstreamCall)
    (hmiss : cacheGet st.cache key now = none)
    (hok : jsGe (getField st.rate.originalApiRequestCounts id) rateLimit = false) :
    (handleApiRequest st now id key call none).resp =
      { status := 500, body := .err "Failed to fetch data" } ∧
    (handleApiRequest st now id key call none).state.cache = st.cache ∧
    getField (handleApiRequest st now id key call none).state.rate.originalApiRequestCounts id
      = jsIncr (getField st.rate.originalApiRequestCounts id) ∧
    cacheGet (handleApiRequest st now id key call none).state.cache key now = none ∧
    (handleApiRequest st now id key call none).upstream = some call := by
  unfold handleApiRequest
  rw [hmiss]
  simp [hok, fetchAndRespond, getField_incrField, hmiss]

/-- C5 witness at the fresh initial state. -/
theorem c5_upstream_failure_semantics_witness :
    (handleApiRequest initialState 0 .search "k"
        (.newsApi "te" none none none) none).resp =
      { status := 500, body := .err "Failed to fetch data" } ∧
    (handleApiRequest initialState 0 .search "k"
        (.newsApi "te" none none none) none).state.cache = initialState.cache ∧
    getField (handleApiRequest initialState 0 .search "k"
        (.newsApi "te" none none none) none).state.rate.originalApiRequestCounts .search
      = jsIncr (getField initialState.rate.originalApiRequestCounts .search) ∧
    cacheGet (handleApiRequest initialState 0 .search "k"
        (.newsApi "te" none none none) none).state.cache "k" 0 = none ∧
    (handleApiRequest initialState 0 .search "k"
        (.newsApi "te" none none none) none).upstream = some (.newsApi "te" none none none) :=
  c5_upstream_failure_semantics initialState 0 .search "k"
    (.newsApi "te" none none none) (by decide) (by decide)

/-- C6 counterexample: two pairs of logically distinct /search requests
collide on the cache key: a dash inside a value shifts the separator
boundaries, and an omitted parameter renders as the same placeholder
string undefined as an explicitly supplied undefined value. -/
theorem c6_cache_key_collision_counterexample :
    ({ q := some "a-b", language := some "te", category := some "c", page := none }
        : SearchQuery) ≠
      { q := some "a", language := some "te", category := some "b-c", page := none } ∧
    searchCacheKey { q := some "a-b", language := some "te", category := some "c", page := none }
      = searchCacheKey { q := some "a", language := some "te", category := some "b-c", page := none } ∧
    ({ q := none, language := some "te", category := some "c", page := none }
        : SearchQuery) ≠
      { q := some "undefined", language := some "te", category := some "c", page := none } ∧
    searchCacheKey { q := none, language := some "te", category := some "c", page := none }
      = searchCacheKey { q := some "undefined", language := some "te", category := some "c", page := none } := by
  decide

/-- C6 amended: key derivation is deterministic (requests whose rendered
parameters agree give the same key) and search keys never collide with
news keys, but keys are not injective over logically distinct requests:
collisions exist (dash-containing values, and omitted parameters against
an explicit undefined value). -/
theorem c6_cache_key_amended :
    (∀ q1 q2 : SearchQuery,
       jsOrDefault q1.language "te" = jsOrDefault q2.language "te" →
       jsStr q1.q = jsStr q2.q → jsStr q1.category = jsStr q2.category →
       q1.page = q2.page → searchCacheKey q1 = searchCacheKey q2) ∧
    (∀ (query : SearchQuery) (l : String) (p : Option String),
       searchCacheKey query ≠ newsCacheKey l p) ∧
    (∃ q1 q2 : SearchQuery, q1 ≠ q2 ∧ searchCacheKey q1 = searchCacheKey q2) := by
  refine ⟨?_, ?_, ?_⟩
  · intro q1 q2 h1 h2 h3 h4
    unfold searchCacheKey
    rw [h1, h2, h3, h4]
  · intro query l p
    obtain ⟨r1, e1⟩ := searchCacheKey_prefix query
    obtain ⟨r2, e2⟩ := newsCacheKey_prefix l p
    rw [e1, e2]
    exact search_ne_news r1 r2
  · exact ⟨{ q := some "a-b", language := some "te", category := some "c", page := none },
      { q := some "a", language := some "te", category := some "b-c", page := none },
      by decide, by decide⟩

/-- C6 amended, witness: determinism applied to an omitted-parameter
request and its rendered twin, and route separation at a concrete key. -/
theorem c6_cache_key_amended_witness :
    searchCacheKey { q := none, language := none, category := none, page := none }
      = searchCacheKey
          { q := some "undefined", language := some "te", category := some "undefined", page := none } ∧
    searchCacheKey { q := none, language := none, category := none, page := none }
      ≠ newsCacheKey "te" none :=
  ⟨c6_cache_key_amended.1
      { q := none, language := none, category := none, page := none }
      { q := some "undefined", language := some "te", category := some "undefined", page := none }
      (by decide) (by decide) (by decide) (by decide),
   c6_cache_key_amended.2.1
      { q := none, language := none, category := none, page := none } "te" none⟩

/-- C7 counterexample: a successful /topnews request from the fresh state
fetches the upstream but stores nothing in the cache and consults no
limiter state (the whole state is untouched), so the route does not
follow the shared admission flow. -/
theorem c7_topnews_counterexample :
    (topnewsRoute initialState 0 (some "payload")).resp.status = 200 ∧
    (topnewsRoute initialState 0 (some "payload")).upstream = some .topNews ∧
    (topnewsRoute initialState 0 (some "payload")).state.cache = [] ∧
    (topnewsRoute initialState 0 (some "payload")).state = initialState := by
  decide

/-- C7 amended: the news and search routes follow the shared admission
flow (hit returns the cached value with no fetch; miss and throttle give
429 with no fetch; miss and admission fetch and store the result), while
the top-news and scrape-and-rewrite routes invoke their upstream fetch
unconditionally with no cache or rate-limiter interaction. -/
theorem c7_admission_flow_amended :
    (∀ (st : SysState) (now : Int) (fr : Option Payload),
       (topnewsRoute st now fr).state = st ∧
       (topnewsRoute st now fr).upstream = some .topNews) ∧
    (∀ (st : SysState) (now : Int) (url : Option String) (fr : Option Payload),
       jsTruthy url = true →
       (topnewsUrlRoute st now url fr).state = st ∧
       (topnewsUrlRoute st now url fr).upstream = some (.scrape (jsStr url))) ∧
    (∀ (st : SysState) (now : Int) (id : Identity) (key : String) (call : UpstreamCall)
        (fr : Option Payload) (v : Payload), cacheGet st.cache key now = some v →
       (handleApiRequest st now id key call fr).resp = { status := 200, body := .data v } ∧
       (handleApiRequest st now id key call fr).upstream = none ∧
       (handleApiRequest st now id key call fr).state.cache = st.cache) ∧
    (∀ (st : SysState) (now : Int) (id : Identity) (key : String) (call : UpstreamCall)
        (fr : Option Payload), cacheGet st.cache key now = none →
       jsGe (getField st.rate.originalApiRequestCounts id) rateLimit = true →
       st.rate.rateLimitResetTime - now > 0 →
       (handleApiRequest st now id key call fr).resp.status = 429 ∧
       (handleApiRequest st now id key call fr).upstream = none) ∧
    (∀ (st : SysState) (now : Int) (id : Identity) (key : String) (call : UpstreamCall)
        (d : Payload), cacheGet st.cache key now = none →
       (jsGe (getField st.rate.originalApiRequestCounts id) rateLimit = false ∨
         st.rate.rateLimitResetTime - now ≤ 0) →
       (handleApiRequest st now id key call (some d)).upstream = some call ∧
       cacheGet (handleApiRequest st now id key call (some d)).state.cache key now = some d ∧
       (handleApiRequest st now id key call (some d)).resp = { status := 200, body := .data d }) := by
  refine ⟨?_, ?_, ?_, ?_, ?_⟩
  · intro st now fr
    cases fr <;> exact ⟨rfl, rfl⟩
  · intro st now url fr h
    unfold topnewsUrlRoute
    rw [h]
    cases fr <;> simp
  · intro st now id key call fr v hhit
    unfold handleApiRequest
    rw [hhit]
    simp
  · intro st now id key call fr hmiss hlim hwin
    unfold handleApiRequest
    rw [hmiss]
    simp [hlim, hwin]
  · intro st now id key call d hmiss hadm
    unfold handleApiRequest
    rw [hmiss]
    cases hge : jsGe (getField st.rate.originalApiRequestCounts id) rateLimit
    case false =>
      simp only [hge, Bool.false_eq_true, if_false]
      simp [fetchAndRespond, cacheGet_cacheSet_self]
    case true =>
      have hexp : st.rate.rateLimitResetTime - now ≤ 0 := by
        rcases hadm with h | h
        · rw [hge] at h
          exact absurd h (by decide)
        · exact h
      simp only [hge, if_true]
      split
      · next hcond => exact absurd hcond (by simp; omega)
      · simp [fetchAndRespond, cacheGet_cacheSet_self]

/-- C7 amended, witness: one concrete instance of each conjunct. -/
theorem c7_admission_flow_amended_witness :
    (topnewsRoute initialState 0 (some "d")).state = initialState ∧
    (topnewsUrlRoute initialState 0 (some "u") (some "d")).state = initialState ∧
    (handleApiRequest exampleHitState 0 .search "k"
        (.newsApi "te" none none none) (some "d")).upstream = none ∧
    (handleApiRequest exampleThrottledState 0 .search "k"
        (.newsApi "te" none none none) none).resp.status = 429 ∧
    (handleApiRequest initialState 0 .search "k"
        (.newsApi "te" none none none) (some "d")).upstream = some (.newsApi "te" none none none) := by
  have h := c7_admission_flow_amended
  exact ⟨(h.1 initialState 0 (some "d")).1,
    (h.2.1 initialState 0 (some "u") (some "d") (by decide)).1,
    (h.2.2.1 exampleHitState 0 .search "k" (.newsApi "te" none none none) (some "d") "v" (by decide)).2.1,
    (h.2.2.2.1 exampleThrottledState 0 .search "k" (.newsApi "te" none none none) none
      (by decide) (by decide) (by decide)).1,
    (h.2.2.2.2 initialState 0 .search "k" (.newsApi "te" none none none) "d"
      (by decide) (Or.inl (by decide))).1⟩

/-- C8: the introspection endpoint does report calls made and remaining
quota, but its reported TimeRemaining is the constant full window (900
seconds) rather than the actual time to the window end: here the window
ends 300 seconds after the call yet 900 is reported, and the report is
independent of the call time, because firstRequestTime is never assigned
by any handler (it stays or becomes none at every transition). -/
theorem c8_introspection_failing_input :
    (rateLimitInfoRoute exampleIntrospectionRate 900000).searchapi.requests = 10 ∧
    (rateLimitInfoRoute exampleIntrospectionRate 900000).searchapi.remaining = 20 ∧
    (rateLimitInfoRoute exampleIntrospectionRate 900000).searchapi.timeRemaining = 900 ∧
    ((exampleIntrospectionRate.rateLimitResetTime - 900000 : Int) : Rat) / 1000 = 300 ∧
    (rateLimitInfoRoute exampleIntrospectionRate 0).searchapi.timeRemaining
      = (rateLimitInfoRoute exampleIntrospectionRate 900000).searchapi.timeRemaining ∧
    (∀ (st : SysState) (now : Int) (id : Identity) (key : String) (call : UpstreamCall)
        (fr : Option Payload),
       (handleApiRequest st now id key call fr).state.rate.firstRequestTime
           = st.rate.firstRequestTime ∨
       (handleApiRequest st now id key call fr).state.rate.firstRequestTime = none) := by
  refine ⟨by decide, by decide, ?_, ?_, ?_, ?_⟩
  · norm_num [rateLimitInfoRoute, rateLimitWindow, exampleIntrospectionRate]
  · norm_num [exampleIntrospectionRate]
  · norm_num [rateLimitInfoRoute, rateLimitWindow, exampleIntrospectionRate]
  · intro st now id key call fr
    unfold handleApiRequest
    split
    · simp
    · dsimp only
      split
      · split
        · simp
        · cases fr <;> simp [fetchAndRespond, resetRateLimit]
      · cases fr <;> simp [fetchAndRespond]

/-- C9 counterexample: a /search request with no query is not rejected:
it is admitted, reaches the upstream fetch (with q undefined), consumes
limiter quota and answers 200, not a 400 validation error. -/
theorem c9_validation_counterexample :
    (searchRoute initialState 0
      { q := none, language := some "te", category := some "c", page := none } (some "d")).resp.status = 200 ∧
    (searchRoute initialState 0
      { q := none, language := some "te", category := some "c", page := none } (some "d")).resp.status ≠ 400 ∧
    (searchRoute initialState 0
      { q := none, language := some "te", category := some "c", page := none } (some "d")).upstream
      = some (.newsApi "te" none (some "c") none) ∧
    (searchRoute initialState 0
      { q := none, language := some "te", category := some "c", page := none } (some "d")).state.rate.originalApiRequestCounts.search = 1 := by
  decide

/-- C9 amended: only the scrape-and-rewrite route validates its required
input: with a missing (or empty) url it answers 400 immediately, leaving
the whole state untouched and fetching nothing; the search route performs
no query validation: an admitted cache-miss request with no query still
reaches the upstream fetch. -/
theorem c9_validation_amended :
    (∀ (st : SysState) (now : Int) (url : Option String) (fr : Option Payload),
       jsTruthy url = false →
       (topnewsUrlRoute st now url fr).resp = { status := 400, body := .err "URL is required" } ∧
       (topnewsUrlRoute st now url fr).state = st ∧
       (topnewsUrlRoute st now url fr).upstream = none) ∧
    (∀ (st : SysState) (now : Int) (lang cat page : Option String) (fr : Option Payload),
       cacheGet st.cache
         (searchCacheKey { q := none, language := lang, category := cat, page := page }) now = none →
       jsGe (getField st.rate.originalApiRequestCounts .search) rateLimit = false →
       ((searchRoute st now { q := none, language := lang, category := cat, page := page } fr).upstream).isSome = true) := by
  constructor
  · intro st now url fr h
    unfold topnewsUrlRoute
    rw [h]
    simp
  · intro st now lang cat page fr hmiss hok
    unfold searchRoute handleApiRequest
    rw [hmiss]
    simp only [hok, Bool.false_eq_true, if_false]
    cases fr <;> simp [fetchAndRespond]

/-- C9 amended, witness: the missing-url 400 and a concrete no-query
search that still fetches. -/
theorem c9_validation_amended_witness :
    (topnewsUrlRoute initialState 0 none (some "d")).resp
      = { status := 400, body := .err "URL is required" } ∧
    ((searchRoute initialState 5
      { q := none, language := none, category := none, page := none } (some "d")).upstream).isSome = true := by
  have h := c9_validation_amended
  exact ⟨(h.1 initialState 0 none (some "d") (by decide)).1,
    h.2 initialState 5 none none none (some "d") (by decide) (by decide)⟩

/-- C10: a /search request with no language parameter is processed with
language te: its cache key equals the key of the same request with an
explicit te language, and any upstream call it makes passes te as the
language (with the other parameters forwarded unchanged). -/
theorem c10_default_language (qq cat page : Option String) (st : SysState)
    (now : Int) (fr : Option Payload) :
    searchCacheKey { q := qq, language := none, category := cat, page := page }
      = searchCacheKey { q := qq, language := some "te", category := cat, page := page } ∧
    ((searchRoute st now { q := qq, language := none, category := cat, page := page } fr).upstream = none ∨
     (searchRoute st now { q := qq, language := none, category := cat, page := page } fr).upstream
       = some (.newsApi "te" qq cat page)) :=
  ⟨rfl, handleApiRequest_upstream_cases st now .search _ _ fr⟩

end Quickback
